import Mathlib

/-
Shallow embedding of src/BlueskyOauthTest.tsx: a browser OAuth client for a
decentralized social network, with create/list/delete operations against a
custom record collection and a locally cached view of that collection.

Modelling conventions:
- React state reads inside a handler use the render snapshot, so each handler
  takes the snapshot values (agent, session) and the current lessons cache as
  arguments and returns the updated cache.
- Each network call is an asynchronous unit whose outcome is passed in as an
  oracle argument of type Except String α; a thrown exception is Except.error
  carrying the message.
- The call-time clock (new Date().toISOString()) is passed in as the `now`
  argument, already rendered in the interchange format.
- Console output is modelled as a list of emitted message strings (objects
  logged alongside a message are elided; the message prefix is kept).
-/

/-- OAuth session value held by the component state; only its owner identity
(the `did` field) is consumed by this layer, the token material being opaque
to it. -/
structure OAuthSession where
  did : String
deriving DecidableEq

/-- Agent construction: `new Agent(session)` builds an authenticated client
bound to the session, `new Agent({service})` an unauthenticated one (used
after logout, source lines 109-112). -/
inductive Agent where
  | fromSession (session : OAuthSession)
  | fromService (service : String)
deriving DecidableEq

/-- Embedding of `createAgent` (source lines 51-54): derive the authenticated
client from a session. -/
def createAgent (session : OAuthSession) : Agent :=
  Agent.fromSession session

/-- The custom collection namespace (source line 38). -/
def LESSON_COLLECTION : String := "app.piano.user.lesson"

/-- The lesson payload (source lines 30-35). The numeric score is modelled as
an integer; it is carried opaquely, no arithmetic is performed on it. -/
structure LessonRecord where
  lessonId : String
  completedAt : String
  score : Int
  notes : Option String
deriving DecidableEq

/-- The record body written by a create (source lines 127-131): the `$type`
tag (field `type` here), the payload fields, and the call-time `createdAt`
timestamp. -/
structure LessonRecordBody where
  type : String
  lessonId : String
  completedAt : String
  score : Int
  notes : Option String
  createdAt : String
deriving DecidableEq

/-- A record as returned by the list-records endpoint; the claims treat the
body opaquely, so only the locator is modelled. -/
structure ListedRecord where
  uri : String
deriving DecidableEq

/-- The reply to a successful create-record request (source lines 135-136). -/
structure CreateResponse where
  uri : String
  cid : String
deriving DecidableEq

/-- A profile as returned by the profile endpoint; opaque to the claims. -/
structure Profile where
  handle : String
deriving DecidableEq

/-- The repository API requests this layer can issue over the network. -/
inductive RepoRequest where
  | createRecord (repo collection : String) (record : LessonRecordBody)
  | listRecords (repo collection : String) (limit : Nat)
  | deleteRecord (repo collection rkey : String)
deriving DecidableEq

/-- Observable result of running one collection operation: the repository
requests issued in order, the lessons cache afterwards, the console messages
emitted, and the outcome delivered to the caller (an early return yields a
normal empty value, a thrown error an `Except.error`). -/
structure OpResult (α : Type) where
  requests : List RepoRequest
  lessons : List ListedRecord
  logs : List String
  outcome : Except String α

/-- Embedding of `fetchLessons` (source lines 149-171): guard on agent and
session, issue one list-records request with limit 100, and on success store
the returned records as the new cache; on failure log and rethrow. -/
def fetchLessons (agent : Option Agent) (session : Option OAuthSession)
    (lessons : List ListedRecord)
    (listResult : Except String (List ListedRecord)) :
    OpResult (Option (List ListedRecord)) :=
  match agent, session with
  | some _, some s =>
    let req := RepoRequest.listRecords s.did LESSON_COLLECTION 100
    match listResult with
    | .ok records =>
      { requests := [req], lessons := records,
        logs := ["Fetched lessons:"], outcome := .ok (some records) }
    | .error e =>
      { requests := [req], lessons := lessons,
        logs := ["Error fetching lessons:" ++ e], outcome := .error e }
  | _, _ =>
    { requests := [], lessons := lessons,
      logs := ["Not logged in"], outcome := .ok none }

/-- Embedding of `saveLesson` (source lines 116-146): guard on agent and
session, issue a create-record request whose body is the payload plus the
collection `$type` tag plus the call-time `createdAt`, then on success await
the `fetchLessons` refresh and return the create response; any thrown error
is logged and rethrown. -/
def saveLesson (agent : Option Agent) (session : Option OAuthSession)
    (lessons : List ListedRecord) (lessonData : LessonRecord) (now : String)
    (createResult : Except String CreateResponse)
    (listResult : Except String (List ListedRecord)) :
    OpResult (Option CreateResponse) :=
  match agent, session with
  | some _, some s =>
    let record : LessonRecordBody :=
      { type := LESSON_COLLECTION
        lessonId := lessonData.lessonId
        completedAt := lessonData.completedAt
        score := lessonData.score
        notes := lessonData.notes
        createdAt := now }
    let req := RepoRequest.createRecord s.did LESSON_COLLECTION record
    match createResult with
    | .ok response =>
      let refresh := fetchLessons agent session lessons listResult
      let okLogs := ["Lesson saved!", "Record URI:" ++ response.uri,
                     "Record CID:" ++ response.cid] ++ refresh.logs
      match refresh.outcome with
      | .ok _ =>
        { requests := req :: refresh.requests, lessons := refresh.lessons,
          logs := okLogs, outcome := .ok (some response) }
      | .error e =>
        { requests := req :: refresh.requests, lessons := refresh.lessons,
          logs := okLogs ++ ["Error saving lesson:" ++ e],
          outcome := .error e }
    | .error e =>
      { requests := [req], lessons := lessons,
        logs := ["Error saving lesson:" ++ e], outcome := .error e }
  | _, _ =>
    { requests := [], lessons := lessons,
      logs := ["Not logged in"], outcome := .ok none }

/-- Embedding of `deleteLesson` (source lines 184-198): guard on agent and
session (silently), issue a delete-record request with the given string as
the record key, on success await the `fetchLessons` refresh; any thrown error
is caught and logged, never rethrown. -/
def deleteLesson (agent : Option Agent) (session : Option OAuthSession)
    (lessons : List ListedRecord) (rkey : String)
    (deleteResult : Except String Unit)
    (listResult : Except String (List ListedRecord)) :
    OpResult Unit :=
  match agent, session with
  | some _, some s =>
    let req := RepoRequest.deleteRecord s.did LESSON_COLLECTION rkey
    match deleteResult with
    | .ok _ =>
      let refresh := fetchLessons agent session lessons listResult
      match refresh.outcome with
      | .ok _ =>
        { requests := req :: refresh.requests, lessons := refresh.lessons,
          logs := refresh.logs, outcome := .ok () }
      | .error e =>
        { requests := req :: refresh.requests, lessons := refresh.lessons,
          logs := refresh.logs ++ ["Error deleting lesson:" ++ e],
          outcome := .ok () }
    | .error e =>
      { requests := [req], lessons := lessons,
        logs := ["Error deleting lesson:" ++ e], outcome := .ok () }
  | _, _ =>
    { requests := [], lessons := lessons, logs := [], outcome := .ok () }

/-- Embedding of the JavaScript `String.prototype.split` with a one-character
separator, on the character-list view of strings: splitting never yields an
empty list of pieces. -/
def splitChar (sep : Char) : List Char → List (List Char)
  | [] => [[]]
  | c :: rest =>
    if c = sep then
      [] :: splitChar sep rest
    else
      match splitChar sep rest with
      | [] => [[c]]
      | piece :: more => (c :: piece) :: more

/-- Embedding of the record-key extraction `record.uri.split("/").pop()`
(source line 278): split the locator on "/" and take the last segment.
JavaScript split never returns an empty array, so `pop` yields the last
element; `getLastD` mirrors that. -/
def rkeyFromUri (uri : String) : String :=
  String.mk ((splitChar '/' uri.data).getLastD [])

/-- Browser local storage as a keyed list of persisted session
representations; values are kept abstract as the session they encode. -/
abbrev Storage := List (String × OAuthSession)

/-- Embedding of `localStorage.removeItem`: drop every entry under the key. -/
def Storage.removeItem : Storage → String → Storage
  | [], _ => []
  | kv :: rest, k =>
    if kv.1 = k then Storage.removeItem rest k
    else kv :: Storage.removeItem rest k

/-- Embedding of `localStorage.getItem`: the first entry under the key. -/
def Storage.getItem : Storage → String → Option OAuthSession
  | [], _ => none
  | kv :: rest, k => if kv.1 = k then some kv.2 else Storage.getItem rest k

/-- Component state: the `useState` cells (source lines 41-44) together with
the browser local storage. -/
structure AppState where
  agent : Option Agent
  session : Option OAuthSession
  profile : Option Profile
  lessons : List ListedRecord
  storage : Storage

/-- Initial component state at mount: the `useState` initial values, with
whatever local storage holds. -/
def initialAppState (storage : Storage) : AppState :=
  { agent := none, session := none, profile := none, lessons := [],
    storage := storage }

/-- Embedding of `handleLogout` (source lines 103-113): clear the session,
clear the agent, remove the "bsky-session" key from local storage, then
install a fresh unauthenticated agent for the default service. -/
def handleLogout (st : AppState) : AppState :=
  { st with
    session := none
    agent := some (Agent.fromService "https://bsky.social")
    storage := st.storage.removeItem "bsky-session" }

/-- Modelled from the spec: the resume-session operation of the external
Authorization Client Adapter (`BrowserOAuthClient.init`, a dependency whose
code is not part of this repository). Per the spec it recovers a previously
established session from the adapter durable local persistence — "a named
local persistence key" — returning an empty result when none is present; the
persistence key is taken to be the one this application purges at logout,
"bsky-session". -/
def resumeSession (storage : Storage) : Option OAuthSession :=
  storage.getItem "bsky-session"

/-- Embedding of the mount effect `initAuth` (source lines 56-77).
`agentAtEffect` is the value of the `agent` state captured by the effect
closure when it was created (at mount this is the initial render value);
`initResult` is the outcome of `client.init()` and `profileResult` the
outcome of the profile request — both network oracles. Returns the new
component state together with the list of profile-request actors actually
issued over the network. -/
def initAuth (agentAtEffect : Option Agent) (st : AppState)
    (initResult : Except String (Option OAuthSession))
    (profileResult : Except String Profile) :
    AppState × List String :=
  match initResult with
  | .error _ => (st, [])
  | .ok none => (st, [])
  | .ok (some s) =>
    let st1 := { st with agent := some (createAgent s), session := some s }
    match agentAtEffect with
    | none => (st1, [])
    | some _ =>
      match profileResult with
      | .ok p => ({ st1 with profile := some p }, [s.did])
      | .error _ => (st1, [s.did])

/-- Splitting always yields at least one piece, as JavaScript split does. -/
theorem splitChar_ne_nil (sep : Char) (l : List Char) : splitChar sep l ≠ [] := by
  match l with
  | [] => simp [splitChar]
  | c :: rest =>
    simp only [splitChar]
    split
    · simp
    · split <;> simp

/-- Splitting distributes over an occurrence of the separator. -/
theorem splitChar_append (sep : Char) (l1 l2 : List Char) :
    splitChar sep (l1 ++ sep :: l2) = splitChar sep l1 ++ splitChar sep l2 := by
  induction l1 with
  | nil => simp [splitChar]
  | cons c t ih =>
    by_cases hc : c = sep
    · subst hc
      simp [splitChar, ih]
    · obtain ⟨piece, more, h⟩ : ∃ p m, splitChar sep t = p :: m := by
        match h2 : splitChar sep t with
        | [] => exact absurd h2 (splitChar_ne_nil sep t)
        | p :: m => exact ⟨p, m, rfl⟩
      simp [splitChar, if_neg hc, ih, h]

/-- A list free of the separator is a single piece. -/
theorem splitChar_of_not_mem (sep : Char) (l : List Char) (h : sep ∉ l) :
    splitChar sep l = [l] := by
  induction l with
  | nil => rfl
  | cons c t ih =>
    simp only [List.mem_cons, not_or] at h
    have hc : ¬ c = sep := fun hh => h.1 hh.symm
    simp [splitChar, if_neg hc, ih h.2]

/-- The last piece of a concatenation is the last piece of the non-empty
right part. -/
theorem getLastD_append_of_ne_nil (a : List (List Char)) :
    ∀ (b : List (List Char)) (d : List Char), b ≠ [] →
      (a ++ b).getLastD d = b.getLastD d := by
  induction a with
  | nil => intro b d _; rfl
  | cons x t ih =>
    intro b d hb
    rw [List.cons_append, List.getLastD_cons, ih b x hb]
    match b with
    | [] => exact absurd rfl hb
    | y :: t2 => rw [List.getLastD_cons, List.getLastD_cons]

/-- Removing a key from storage makes lookups of that key come back empty. -/
theorem getItem_removeItem : ∀ (st : Storage) (k : String),
    Storage.getItem (Storage.removeItem st k) k = none
  | [], _ => rfl
  | kv :: rest, k => by
    by_cases h : kv.1 = k
    · simp [Storage.removeItem, h, getItem_removeItem rest k]
    · simp [Storage.removeItem, Storage.getItem, h, getItem_removeItem rest k]

/-- C1 counterexample: with the Session Store empty, the operations do not
fail — at the concrete inputs below each outcome is a normal success value
(`Except.ok`), with no NotAuthenticated or other error condition delivered to
the caller (formalizing "fails with a condition" as an `Except.error`
outcome), even though the supplied network oracles would have failed; the
operations merely return early. -/
theorem noSession_outcome_is_not_an_error :
    (saveLesson none none []
        { lessonId := "lesson-1", completedAt := "2024-01-01T00:00:00Z",
          score := 87, notes := none }
        "2024-01-02T00:00:00Z" (Except.error "network down")
        (Except.error "network down")).outcome = Except.ok none ∧
    (fetchLessons none none [] (Except.error "network down")).outcome
      = Except.ok none ∧
    (deleteLesson none none [] "abc789" (Except.error "network down")
        (Except.error "network down")).outcome = Except.ok () :=
  ⟨rfl, rfl, rfl⟩

/-- C1 (amended): any Collection Access Layer operation invoked while the
Session Store is empty returns early before any network call — zero
repository requests are issued and the cache is untouched — but no error is
raised to the caller: create and list log "Not logged in" and resolve with an
empty value, delete resolves silently. -/
theorem noSession_zero_requests (ag : Option Agent)
    (cache : List ListedRecord) (d : LessonRecord) (now rk : String)
    (cr : Except String CreateResponse) (dr : Except String Unit)
    (lr : Except String (List ListedRecord)) :
    saveLesson ag none cache d now cr lr
      = { requests := [], lessons := cache, logs := ["Not logged in"],
          outcome := Except.ok none } ∧
    fetchLessons ag none cache lr
      = { requests := [], lessons := cache, logs := ["Not logged in"],
          outcome := Except.ok none } ∧
    deleteLesson ag none cache rk dr lr
      = { requests := [], lessons := cache, logs := [],
          outcome := Except.ok () } := by
  cases ag <;> exact ⟨rfl, rfl, rfl⟩

/-- C2: after a successful create (create request acknowledged, triggered
refresh succeeding) and after a successful delete, the lessons cache equals
exactly the records a fresh list call returns against the same server reply,
whatever the prior cache contents were (full replacement, no incremental
patching), and the refresh request follows the mutation request. -/
theorem cache_refresh_after_mutation (a : Agent) (s : OAuthSession)
    (cache cache2 : List ListedRecord) (d : LessonRecord) (now rk : String)
    (resp : CreateResponse) (l : List ListedRecord) :
    (saveLesson (some a) (some s) cache d now (Except.ok resp)
        (Except.ok l)).lessons
      = (fetchLessons (some a) (some s) cache2 (Except.ok l)).lessons ∧
    (deleteLesson (some a) (some s) cache rk (Except.ok ())
        (Except.ok l)).lessons
      = (fetchLessons (some a) (some s) cache2 (Except.ok l)).lessons ∧
    (fetchLessons (some a) (some s) cache2 (Except.ok l)).lessons = l ∧
    (saveLesson (some a) (some s) cache d now (Except.ok resp)
        (Except.ok l)).requests
      = [RepoRequest.createRecord s.did LESSON_COLLECTION
          { type := LESSON_COLLECTION, lessonId := d.lessonId,
            completedAt := d.completedAt, score := d.score,
            notes := d.notes, createdAt := now },
         RepoRequest.listRecords s.did LESSON_COLLECTION 100] ∧
    (deleteLesson (some a) (some s) cache rk (Except.ok ())
        (Except.ok l)).requests
      = [RepoRequest.deleteRecord s.did LESSON_COLLECTION rk,
         RepoRequest.listRecords s.did LESSON_COLLECTION 100] :=
  ⟨rfl, rfl, rfl, rfl, rfl⟩

/-- C3 counterexample: a delete whose delete-record request fails resolves
with a normal success outcome (`Except.ok ()`) — the underlying cause is only
written to the console log, so the failure is swallowed rather than raised to
the immediate caller (the cache-unchanged half of the claim does hold). -/
theorem deleteLesson_failure_swallowed :
    deleteLesson (some (Agent.fromSession { did := "did123" }))
        (some { did := "did123" })
        [{ uri := "at://did123/app.piano.user.lesson/abc789" }] "abc789"
        (Except.error "network down") (Except.ok [])
      = { requests := [RepoRequest.deleteRecord "did123"
            "app.piano.user.lesson" "abc789"],
          lessons := [{ uri := "at://did123/app.piano.user.lesson/abc789" }],
          logs := ["Error deleting lesson:" ++ "network down"],
          outcome := Except.ok () } := rfl

/-- C3 (amended): every failed delete leaves the cache unchanged from its
pre-call value and issues no refresh, but the failure is not raised to the
caller — the underlying cause is logged and the operation resolves normally
with `Except.ok ()`. -/
theorem deleteLesson_failure_cache_unchanged (a : Agent) (s : OAuthSession)
    (cache : List ListedRecord) (rk e : String)
    (lr : Except String (List ListedRecord)) :
    deleteLesson (some a) (some s) cache rk (Except.error e) lr
      = { requests := [RepoRequest.deleteRecord s.did LESSON_COLLECTION rk],
          lessons := cache, logs := ["Error deleting lesson:" ++ e],
          outcome := Except.ok () } := rfl

/-- C4: for every locator of the form scheme://owner/namespace/key whose
record key contains no slash, the extracted record key is the final
slash-delimited segment, the key itself; in particular the locator
at://did123/app.piano.user.lesson/abc789 yields exactly abc789. -/
theorem rkeyFromUri_locator :
    (∀ scheme owner ns key : String, ('/' : Char) ∉ key.data →
      rkeyFromUri (scheme ++ "://" ++ owner ++ "/" ++ ns ++ "/" ++ key)
        = key) ∧
    rkeyFromUri "at://did123/app.piano.user.lesson/abc789" = "abc789" := by
  constructor
  · intro scheme owner ns key hk
    unfold rkeyFromUri
    have hdata : (scheme ++ "://" ++ owner ++ "/" ++ ns ++ "/" ++ key).data
        = (scheme ++ "://" ++ owner ++ "/" ++ ns).data ++ '/' :: key.data := by
      show ((scheme ++ "://" ++ owner ++ "/" ++ ns).data ++ ['/'])
          ++ key.data = _
      rw [List.append_assoc]
      rfl
    rw [hdata, splitChar_append, splitChar_of_not_mem '/' key.data hk,
      getLastD_append_of_ne_nil _ [key.data] [] (by simp)]
    rfl
  · rfl

/-- C4 witness: the general segment theorem applied to the concrete locator
at://did123/app.piano.user.lesson/abc789 yields abc789. -/
theorem rkeyFromUri_locator_witness :
    rkeyFromUri ("at" ++ "://" ++ "did123" ++ "/" ++ "app.piano.user.lesson"
        ++ "/" ++ "abc789") = "abc789" :=
  rkeyFromUri_locator.1 "at" "did123" "app.piano.user.lesson" "abc789"
    (by decide)

/-- C5: every create with a session present issues, as its first request, a
create-record request addressed to the session owner DID and the configured
collection namespace, whose body is the payload fields plus the namespace
type tag plus the call-time creation timestamp. -/
theorem saveLesson_record_body (a : Agent) (s : OAuthSession)
    (cache : List ListedRecord) (d : LessonRecord) (now : String)
    (cr : Except String CreateResponse)
    (lr : Except String (List ListedRecord)) :
    (saveLesson (some a) (some s) cache d now cr lr).requests.head?
      = some (RepoRequest.createRecord s.did LESSON_COLLECTION
          { type := LESSON_COLLECTION, lessonId := d.lessonId,
            completedAt := d.completedAt, score := d.score,
            notes := d.notes, createdAt := now }) := by
  cases cr <;> cases lr <;> rfl

/-- C6: every failed create propagates the failure to the caller — the error
outcome carries the underlying cause, which is the failure of either the
create request or the triggered refresh — and leaves the lessons cache
unchanged from its pre-call value. -/
theorem saveLesson_failure_cache_unchanged (a : Agent) (s : OAuthSession)
    (cache : List ListedRecord) (d : LessonRecord) (now e : String)
    (cr : Except String CreateResponse)
    (lr : Except String (List ListedRecord))
    (h : (saveLesson (some a) (some s) cache d now cr lr).outcome
      = Except.error e) :
    (saveLesson (some a) (some s) cache d now cr lr).lessons = cache ∧
    (cr = Except.error e ∨ lr = Except.error e) := by
  cases cr with
  | error e2 =>
    have he : e2 = e := Except.error.inj h
    exact ⟨rfl, Or.inl (by rw [he])⟩
  | ok r =>
    cases lr with
    | error e2 =>
      have he : e2 = e := Except.error.inj h
      exact ⟨rfl, Or.inr (by rw [he])⟩
    | ok l => exact Except.noConfusion h

/-- C6 witness: a concrete create whose create-record request fails with
"boom" leaves the one-element cache exactly as it was. -/
theorem saveLesson_failure_cache_unchanged_witness :
    (saveLesson (some (Agent.fromSession { did := "did999" }))
        (some { did := "did999" })
        [{ uri := "at://did999/app.piano.user.lesson/k1" }]
        { lessonId := "lesson-2", completedAt := "2024-02-02T00:00:00Z",
          score := 50, notes := some "extra" }
        "2024-02-03T00:00:00Z" (Except.error "boom")
        (Except.ok [])).lessons
      = [{ uri := "at://did999/app.piano.user.lesson/k1" }] ∧
    ((Except.error "boom" : Except String CreateResponse)
        = Except.error "boom" ∨
      (Except.ok [] : Except String (List ListedRecord))
        = Except.error "boom") :=
  saveLesson_failure_cache_unchanged
    (Agent.fromSession { did := "did999" }) { did := "did999" }
    [{ uri := "at://did999/app.piano.user.lesson/k1" }]
    { lessonId := "lesson-2", completedAt := "2024-02-02T00:00:00Z",
      score := 50, notes := some "extra" }
    "2024-02-03T00:00:00Z" "boom" (Except.error "boom") (Except.ok []) rfl

/-- C7 counterexample: a delete given a full record locator does not derive
the record key — at this concrete input it issues the delete-record request
with the entire locator string as the record key, and that string differs
from its final slash-delimited segment. -/
theorem deleteLesson_full_address_not_derived :
    (deleteLesson (some (Agent.fromSession { did := "did123" }))
        (some { did := "did123" }) []
        "at://did123/app.piano.user.lesson/abc789"
        (Except.ok ()) (Except.ok [])).requests.head?
      = some (RepoRequest.deleteRecord "did123" "app.piano.user.lesson"
          "at://did123/app.piano.user.lesson/abc789") ∧
    "at://did123/app.piano.user.lesson/abc789"
      ≠ rkeyFromUri "at://did123/app.piano.user.lesson/abc789" :=
  ⟨rfl, by decide⟩

/-- C7 (amended): the delete operation accepts a bare record key and issues
its delete-record request addressed to (session owner DID, namespace, given
key) with the argument passed through verbatim; deriving the key from a full
locator by last-segment extraction is done by the calling code before the
delete operation is invoked. -/
theorem deleteLesson_request_addressing (a : Agent) (s : OAuthSession)
    (cache : List ListedRecord) (rk : String) (dr : Except String Unit)
    (lr : Except String (List ListedRecord)) :
    (deleteLesson (some a) (some s) cache rk dr lr).requests.head?
      = some (RepoRequest.deleteRecord s.did LESSON_COLLECTION rk) := by
  cases dr <;> cases lr <;> rfl

/-- C8: with a session present, a list call issues exactly one list-records
request scoped to the session owner DID and the configured namespace with
page size 100, and on success replaces the whole cache with exactly the
returned sequence, independent of the prior cache contents; on failure the
single request is the same. -/
theorem fetchLessons_request_and_replace (a : Agent) (s : OAuthSession)
    (cache l : List ListedRecord) (e : String) :
    fetchLessons (some a) (some s) cache (Except.ok l)
      = { requests := [RepoRequest.listRecords s.did LESSON_COLLECTION 100],
          lessons := l, logs := ["Fetched lessons:"],
          outcome := Except.ok (some l) } ∧
    (fetchLessons (some a) (some s) cache (Except.error e)).requests
      = [RepoRequest.listRecords s.did LESSON_COLLECTION 100] :=
  ⟨rfl, rfl⟩

/-- C9: logout empties the Session Store, unconditionally removes the
persisted session representation under the "bsky-session" key from local
storage, and a subsequent resume-session call on the resulting storage
returns an empty result. -/
theorem handleLogout_clears_session (st : AppState) :
    (handleLogout st).session = none ∧
    Storage.getItem (handleLogout st).storage "bsky-session" = none ∧
    resumeSession (handleLogout st).storage = none :=
  ⟨rfl, getItem_removeItem st.storage "bsky-session",
    getItem_removeItem st.storage "bsky-session"⟩

/-- C10: when the mount effect resumes a session successfully, the session
and the derived agent are stored, but the profile fetch is skipped: the guard
reads the stale agent value captured at effect creation — the initial none —
so zero profile requests are issued and the profile stays unset. -/
theorem initAuth_resume_skips_profile (storage : Storage) (s : OAuthSession)
    (pr : Except String Profile) :
    (initAuth (initialAppState storage).agent (initialAppState storage)
        (Except.ok (some s)) pr).1.profile = none ∧
    (initAuth (initialAppState storage).agent (initialAppState storage)
        (Except.ok (some s)) pr).2 = [] ∧
    (initAuth (initialAppState storage).agent (initialAppState storage)
        (Except.ok (some s)) pr).1.session = some s ∧
    (initAuth (initialAppState storage).agent (initialAppState storage)
        (Except.ok (some s)) pr).1.agent = some (createAgent s) :=
  ⟨rfl, rfl, rfl, rfl⟩
